import Mathlib

/-!
Shallow embedding of the MedSist repository (a UBS / medical-record CRUD
application) for checking its natural-language specification.

The embedding follows the source files:
  * src/unnamed/part_009  (shared/schema.ts): table shapes, insert shapes,
    and the zod validator sifilesCongenitaSchema for the clinical payload.
  * src/server/storage.ts: the MemStorage (in-memory) and DatabaseStorage
    (drizzle/postgres) implementations of the IStorage interface.
  * src/client/src/components/medical-record/medical-record-form.tsx:
    the form controller (submit-time date normalization, auto-fill effect).

Modelling conventions: timestamps are natural numbers; the JSON `data`
column of a medical record is an opaque serialized document modelled as a
String (storage.ts never inspects it); JavaScript Maps are association
lists in insertion order (Map.set replaces in place, Map.delete filters);
drizzle tables are lists of rows in insertion order with a serial counter;
locale-aware string comparison (String.localeCompare) is modelled by the
code-point order on strings.
-/

/-- Timestamps (milliseconds since epoch), as in Date.getTime(). -/
abbrev Time := Nat

/-! ## Data model, from shared/schema.ts (src/unnamed/part_009) -/

/-- Row of the `ubs` table. Optional text columns are nullable. -/
structure Ubs where
  id : Nat
  name : String
  address : String
  city : String
  state : String
  zipCode : Option String
  phone : Option String
  email : Option String
  district : Option String
  createdAt : Time
  deriving DecidableEq, Repr

/-- Insert shape for `ubs` (insertUbsSchema omits id and createdAt). -/
structure InsertUbs where
  name : String
  address : String
  city : String
  state : String
  zipCode : Option String
  phone : Option String
  email : Option String
  district : Option String
  deriving DecidableEq, Repr

/-- Row of the `employees` table; `role` is the employee_role enum as text. -/
structure Employee where
  id : Nat
  name : String
  role : String
  specialty : Option String
  licenseNumber : Option String
  ubsId : Option Nat
  email : String
  phone : Option String
  isActive : Option Bool
  createdAt : Time
  deriving DecidableEq, Repr

/-- Row of the `diseases` table. -/
structure Disease where
  id : Nat
  name : String
  description : Option String
  icd10Code : Option String
  createdAt : Time
  deriving DecidableEq, Repr

/-- Row of the `medical_records` table.  The `data` json column holds the
clinical payload as an opaque serialized document (the storage layer never
looks inside it), modelled as a String. -/
structure MedicalRecord where
  id : Nat
  patientName : String
  patientBirthDate : Time
  diseaseId : Option Nat
  ubsId : Option Nat
  employeeId : Option Nat
  data : String
  status : String
  createdAt : Time
  updatedAt : Time
  deriving DecidableEq, Repr

/-- Insert shape for `medical_records` (insertMedicalRecordSchema omits
id, createdAt and updatedAt). -/
structure InsertMedicalRecord where
  patientName : String
  patientBirthDate : Time
  diseaseId : Option Nat
  ubsId : Option Nat
  employeeId : Option Nat
  data : String
  status : String
  deriving DecidableEq, Repr

/-- Patch shape `Partial<InsertMedicalRecord>`: every insert field optional;
`none` models an absent key (JSON bodies cannot carry undefined). -/
structure PatchMedicalRecord where
  patientName : Option String := none
  patientBirthDate : Option Time := none
  diseaseId : Option (Option Nat) := none
  ubsId : Option (Option Nat) := none
  employeeId : Option (Option Nat) := none
  data : Option String := none
  status : Option String := none
  deriving DecidableEq, Repr

/-! ## JavaScript Map as an insertion-ordered association list

MemStorage keeps each table in a `Map<number, T>`.  `Map.set` on an existing
key replaces the value in place (iteration order keeps the original
position); on a fresh key it appends.  `Map.get` is lookup by key,
`Map.delete` removes the entry and reports whether it was present,
`Array.from(map.values())` is the list itself. -/

/-- `Map.get k`: first (unique) entry whose key matches. -/
def mapGet (key : α → Nat) (l : List α) (k : Nat) : Option α :=
  l.find? (fun q => key q == k)

/-- `Map.set (key x) x`: replace in place when present, else append. -/
def mapSet (key : α → Nat) (l : List α) (x : α) : List α :=
  if l.any (fun q => key q == key x) then
    l.map (fun q => if key q == key x then x else q)
  else
    l ++ [x]

/-- `Map.delete k`: whether it was present, and the remaining entries. -/
def mapDelete (key : α → Nat) (l : List α) (k : Nat) : Bool × List α :=
  (l.any (fun q => key q == k), l.filter (fun q => !(key q == k)))

theorem find_replace_of_any (key : α → Nat) (x : α) :
    ∀ l : List α, l.any (fun q => key q == key x) = true →
      (l.map (fun q => if key q == key x then x else q)).find?
        (fun q => key q == key x) = some x := by
  intro l
  induction l with
  | nil => intro h; simp at h
  | cons a t ih =>
    intro h
    by_cases ha : (key a == key x) = true
    · simp only [List.map_cons, ha, if_true]
      exact List.find?_cons_of_pos _ (by simp)
    · have ha' : (key a == key x) = false := by simpa using ha
      simp only [List.map_cons, ha', Bool.false_eq_true, if_false]
      rw [List.find?_cons_of_neg _ (by simp [ha'])]
      apply ih
      simpa [ha'] using h

theorem find_append_of_none (p : α → Bool) (x : α) :
    ∀ l : List α, l.any p = false → p x = true →
      (l ++ [x]).find? p = some x := by
  intro l
  induction l with
  | nil =>
    intro _ hx
    simpa using List.find?_cons_of_pos ([] : List α) hx
  | cons a t ih =>
    intro h hx
    simp only [List.any_cons, Bool.or_eq_false_iff] at h
    rw [List.cons_append, List.find?_cons_of_neg _ (by simp [h.1])]
    exact ih h.2 hx

theorem mapGet_mapSet_self (key : α → Nat) (l : List α) (x : α) :
    mapGet key (mapSet key l x) (key x) = some x := by
  unfold mapGet mapSet
  by_cases h : l.any (fun q => key q == key x) = true
  · rw [if_pos h]
    exact find_replace_of_any key x l h
  · rw [if_neg h]
    exact find_append_of_none _ x l (by simpa using h) (by simp)

theorem find_cons_congr (p : α → Bool) (a : α) (t1 t2 : List α)
    (h : t1.find? p = t2.find? p) :
    (a :: t1).find? p = (a :: t2).find? p := by
  cases hpa : p a <;> simp [List.find?, hpa, h]

theorem find_cons_neg_congr (p : α → Bool) (a b : α) (t1 t2 : List α)
    (ha : p a = false) (hb : p b = false) (h : t1.find? p = t2.find? p) :
    (a :: t1).find? p = (b :: t2).find? p := by
  simp [List.find?, ha, hb, h]

theorem mapGet_mapSet_other (key : α → Nat) (l : List α) (x : α) (k : Nat)
    (hne : key x ≠ k) : mapGet key (mapSet key l x) k = mapGet key l k := by
  unfold mapGet mapSet
  by_cases h : l.any (fun q => key q == key x) = true
  · rw [if_pos h]
    clear h
    induction l with
    | nil => rfl
    | cons a t ih =>
      by_cases ha : (key a == key x) = true
      · have hax : key a = key x := by simpa using ha
        simp only [List.map_cons, ha, if_true]
        exact find_cons_neg_congr _ x a _ _ (by simp [hne])
          (by simp [hax, hne]) ih
      · have ha' : (key a == key x) = false := by simpa using ha
        simp only [List.map_cons, ha', Bool.false_eq_true, if_false]
        exact find_cons_congr _ a _ _ ih
  · rw [if_neg h]
    clear h
    induction l with
    | nil =>
      simp only [List.nil_append]
      simp [List.find?, show (key x == k) = false by simpa using hne]
    | cons a t ih =>
      rw [List.cons_append]
      exact find_cons_congr _ a _ _ ih

theorem mapGet_mapDelete_self (key : α → Nat) (l : List α) (k : Nat) :
    mapGet key (mapDelete key l k).2 k = none := by
  unfold mapGet mapDelete
  simp only [List.find?_eq_none]
  intro x hx
  have := List.of_mem_filter hx
  simpa using this

theorem mapDelete_fst_iff (key : α → Nat) (l : List α) (k : Nat) :
    (mapDelete key l k).1 = true ↔ (mapGet key l k).isSome := by
  unfold mapGet mapDelete
  simp only [List.any_eq_true, List.find?_isSome]

/-! ## MemStorage (storage.ts, class MemStorage)

State: one Map per table plus the per-table currentId counters initialized
to 1 in the constructor.  (The users table is omitted: no claim touches it
and its operations mirror the others.) -/

structure MemStore where
  ubsList : List Ubs
  employeesList : List Employee
  diseasesList : List Disease
  medicalRecordsList : List MedicalRecord
  currentIdUbs : Nat
  currentIdEmployees : Nat
  currentIdDiseases : Nat
  currentIdMedicalRecords : Nat
  deriving DecidableEq, Repr

/-- The state built by the MemStorage constructor. -/
def initialMemStore : MemStore :=
  { ubsList := [], employeesList := [], diseasesList := [],
    medicalRecordsList := [],
    currentIdUbs := 1, currentIdEmployees := 1, currentIdDiseases := 1,
    currentIdMedicalRecords := 1 }

/-- MemStorage.getUbs. -/
def memGetUbs (s : MemStore) (id : Nat) : Option Ubs :=
  mapGet Ubs.id s.ubsList id

/-- MemStorage.createUbs: id from the ubs counter, createdAt now. -/
def memCreateUbs (s : MemStore) (x : InsertUbs) (now : Time) :
    Ubs × MemStore :=
  let id := s.currentIdUbs
  let newUbs : Ubs :=
    { id := id, name := x.name, address := x.address, city := x.city,
      state := x.state, zipCode := x.zipCode, phone := x.phone,
      email := x.email, district := x.district, createdAt := now }
  (newUbs,
   { s with ubsList := mapSet Ubs.id s.ubsList newUbs,
            currentIdUbs := id + 1 })

/-- MemStorage.deleteUbs: Map.delete result. -/
def memDeleteUbs (s : MemStore) (id : Nat) : Bool × MemStore :=
  let (present, rest) := mapDelete Ubs.id s.ubsList id
  (present, { s with ubsList := rest })

/-- Comparator used by MemStorage list sorts for UBS:
(a, b) => a.name.localeCompare(b.name), ascending; localeCompare modelled
by the code-point order on strings. -/
def ubsNameAsc : Ubs → Ubs → Prop := fun a b => a.name ≤ b.name

instance : DecidableRel ubsNameAsc :=
  fun a b => inferInstanceAs (Decidable (a.name ≤ b.name))

/-- MemStorage.getAllUbs: values sorted by name ascending. -/
def memGetAllUbs (s : MemStore) : List Ubs :=
  List.insertionSort ubsNameAsc s.ubsList

/-- MemStorage.getAllEmployees comparator. -/
def empNameAsc : Employee → Employee → Prop := fun a b => a.name ≤ b.name

instance : DecidableRel empNameAsc :=
  fun a b => inferInstanceAs (Decidable (a.name ≤ b.name))

/-- MemStorage.getAllEmployees: values sorted by name ascending. -/
def memGetAllEmployees (s : MemStore) : List Employee :=
  List.insertionSort empNameAsc s.employeesList

/-- MemStorage.getEmployeesByUbs: filter, no sort. -/
def memGetEmployeesByUbs (s : MemStore) (ubsId : Nat) : List Employee :=
  s.employeesList.filter (fun emp => emp.ubsId == some ubsId)

/-- MemStorage.getEmployeesByRole: filter, no sort. -/
def memGetEmployeesByRole (s : MemStore) (role : String) : List Employee :=
  s.employeesList.filter (fun emp => emp.role == role)

/-- MemStorage.getAllDiseases comparator. -/
def disNameAsc : Disease → Disease → Prop := fun a b => a.name ≤ b.name

instance : DecidableRel disNameAsc :=
  fun a b => inferInstanceAs (Decidable (a.name ≤ b.name))

/-- MemStorage.getAllDiseases: values sorted by name ascending. -/
def memGetAllDiseases (s : MemStore) : List Disease :=
  List.insertionSort disNameAsc s.diseasesList

/-- Comparator of the medical-record sorts:
(a, b) => b.createdAt.getTime() - a.createdAt.getTime(), so the output is
ascending in that difference, i.e. createdAt descending. -/
def recCreatedDesc : MedicalRecord → MedicalRecord → Prop :=
  fun a b => b.createdAt ≤ a.createdAt

instance : DecidableRel recCreatedDesc :=
  fun a b => inferInstanceAs (Decidable (b.createdAt ≤ a.createdAt))

/-- MemStorage.getAllMedicalRecords: values sorted createdAt descending. -/
def memGetAllMedicalRecords (s : MemStore) : List MedicalRecord :=
  List.insertionSort recCreatedDesc s.medicalRecordsList

/-- MemStorage.getMedicalRecordsByUbs: filter then sort createdAt desc. -/
def memGetMedicalRecordsByUbs (s : MemStore) (ubsId : Nat) :
    List MedicalRecord :=
  List.insertionSort recCreatedDesc
    (s.medicalRecordsList.filter (fun record => record.ubsId == some ubsId))

/-- MemStorage.getMedicalRecordsByDisease: filter then sort desc. -/
def memGetMedicalRecordsByDisease (s : MemStore) (diseaseId : Nat) :
    List MedicalRecord :=
  List.insertionSort recCreatedDesc
    (s.medicalRecordsList.filter
      (fun record => record.diseaseId == some diseaseId))

/-- MemStorage.getMedicalRecord. -/
def memGetMedicalRecord (s : MemStore) (id : Nat) : Option MedicalRecord :=
  mapGet MedicalRecord.id s.medicalRecordsList id

/-- The record built by MemStorage.createMedicalRecord:
{ ...record, id, createdAt: now, updatedAt: now }. -/
def buildMedicalRecord (x : InsertMedicalRecord) (id : Nat) (now : Time) :
    MedicalRecord :=
  { id := id, patientName := x.patientName,
    patientBirthDate := x.patientBirthDate, diseaseId := x.diseaseId,
    ubsId := x.ubsId, employeeId := x.employeeId, data := x.data,
    status := x.status, createdAt := now, updatedAt := now }

/-- MemStorage.createMedicalRecord. -/
def memCreateMedicalRecord (s : MemStore) (x : InsertMedicalRecord)
    (now : Time) : MedicalRecord × MemStore :=
  let id := s.currentIdMedicalRecords
  let newRecord := buildMedicalRecord x id now
  (newRecord,
   { s with
       medicalRecordsList := mapSet MedicalRecord.id s.medicalRecordsList
         newRecord,
       currentIdMedicalRecords := id + 1 })

/-- The merge { ...record, ...data, updatedAt: new Date() } of
MemStorage.updateMedicalRecord: present patch fields overwrite, updatedAt
is always refreshed, id and createdAt are untouched (the patch shape has
no such keys). -/
def mergeMedicalRecord (r : MedicalRecord) (p : PatchMedicalRecord)
    (now : Time) : MedicalRecord :=
  { id := r.id,
    patientName := p.patientName.getD r.patientName,
    patientBirthDate := p.patientBirthDate.getD r.patientBirthDate,
    diseaseId := p.diseaseId.getD r.diseaseId,
    ubsId := p.ubsId.getD r.ubsId,
    employeeId := p.employeeId.getD r.employeeId,
    data := p.data.getD r.data,
    status := p.status.getD r.status,
    createdAt := r.createdAt,
    updatedAt := now }

/-- MemStorage.updateMedicalRecord. -/
def memUpdateMedicalRecord (s : MemStore) (id : Nat)
    (p : PatchMedicalRecord) (now : Time) :
    Option MedicalRecord × MemStore :=
  match mapGet MedicalRecord.id s.medicalRecordsList id with
  | none => (none, s)
  | some r =>
    let updated := mergeMedicalRecord r p now
    (some updated,
     { s with
         medicalRecordsList := mapSet MedicalRecord.id
           s.medicalRecordsList updated })

/-- MemStorage.deleteMedicalRecord: Map.delete result. -/
def memDeleteMedicalRecord (s : MemStore) (id : Nat) : Bool × MemStore :=
  let (present, rest) := mapDelete MedicalRecord.id s.medicalRecordsList id
  (present, { s with medicalRecordsList := rest })

/-- Shape returned by getStatistics, with the field names used by the
source (ubsCount, doctorCount, recordCount, activeRecordCount). -/
structure Statistics where
  ubsCount : Nat
  doctorCount : Nat
  recordCount : Nat
  activeRecordCount : Nat
  deriving DecidableEq, Repr

/-- MemStorage.getStatistics: live sizes and filtered lengths. -/
def memGetStatistics (s : MemStore) : Statistics :=
  { ubsCount := s.ubsList.length,
    doctorCount :=
      (s.employeesList.filter (fun emp => emp.role == "doctor")).length,
    recordCount := s.medicalRecordsList.length,
    activeRecordCount :=
      (s.medicalRecordsList.filter
        (fun rec => rec.status == "active")).length }

/-! ## DatabaseStorage (storage.ts, class DatabaseStorage)

Drizzle tables are modelled as lists of rows in insertion order with a
serial id counter.  `select().where(p)` filters in table order,
`orderBy(col)` sorts ascending and `orderBy(desc(col))` descending,
`insert.values(v).returning()` appends a row built from v with the serial
id and the defaultNow() timestamps of the statement, `update.set` merges
into every matching row, `delete.where` removes matching rows.  The
employees.ubsId foreign key is declared onDelete cascade, so deleting a
UBS row also deletes its employees. -/

structure DbState where
  ubs : List Ubs
  employees : List Employee
  diseases : List Disease
  medicalRecords : List MedicalRecord
  ubsSerial : Nat
  employeesSerial : Nat
  diseasesSerial : Nat
  medicalRecordsSerial : Nat
  deriving DecidableEq, Repr

/-- A fresh database: empty tables, serial sequences at 1. -/
def initialDbState : DbState :=
  { ubs := [], employees := [], diseases := [], medicalRecords := [],
    ubsSerial := 1, employeesSerial := 1, diseasesSerial := 1,
    medicalRecordsSerial := 1 }

/-- DatabaseStorage.getAllUbs: select orderBy(ubs.name). -/
def dbGetAllUbs (d : DbState) : List Ubs :=
  List.insertionSort ubsNameAsc d.ubs

/-- DatabaseStorage.getUbs: first row matching the id. -/
def dbGetUbs (d : DbState) (id : Nat) : Option Ubs :=
  (d.ubs.filter (fun row => row.id == id)).head?

/-- DatabaseStorage.createUbs: insert with serial id and defaultNow. -/
def dbCreateUbs (d : DbState) (x : InsertUbs) (now : Time) :
    Ubs × DbState :=
  let row : Ubs :=
    { id := d.ubsSerial, name := x.name, address := x.address,
      city := x.city, state := x.state, zipCode := x.zipCode,
      phone := x.phone, email := x.email, district := x.district,
      createdAt := now }
  (row, { d with ubs := d.ubs ++ [row], ubsSerial := d.ubsSerial + 1 })

/-- DatabaseStorage.deleteUbs: delete the rows (employees cascade via the
onDelete action), then return true unconditionally. -/
def dbDeleteUbs (d : DbState) (id : Nat) : Bool × DbState :=
  (true,
   { d with
       ubs := d.ubs.filter (fun row => !(row.id == id)),
       employees :=
         d.employees.filter (fun row => !(row.ubsId == some id)) })

/-- DatabaseStorage.getAllEmployees: select orderBy(employees.name). -/
def dbGetAllEmployees (d : DbState) : List Employee :=
  List.insertionSort empNameAsc d.employees

/-- DatabaseStorage.getAllDiseases: select orderBy(diseases.name). -/
def dbGetAllDiseases (d : DbState) : List Disease :=
  List.insertionSort disNameAsc d.diseases

/-- DatabaseStorage.getAllMedicalRecords: orderBy(desc(createdAt)). -/
def dbGetAllMedicalRecords (d : DbState) : List MedicalRecord :=
  List.insertionSort recCreatedDesc d.medicalRecords

/-- DatabaseStorage.getMedicalRecordsByUbs: where(ubsId = _), no orderBy:
rows come back in table order. -/
def dbGetMedicalRecordsByUbs (d : DbState) (ubsId : Nat) :
    List MedicalRecord :=
  d.medicalRecords.filter (fun row => row.ubsId == some ubsId)

/-- DatabaseStorage.getMedicalRecordsByDisease: where only, no orderBy. -/
def dbGetMedicalRecordsByDisease (d : DbState) (diseaseId : Nat) :
    List MedicalRecord :=
  d.medicalRecords.filter (fun row => row.diseaseId == some diseaseId)

/-- DatabaseStorage.getMedicalRecord. -/
def dbGetMedicalRecord (d : DbState) (id : Nat) : Option MedicalRecord :=
  (d.medicalRecords.filter (fun row => row.id == id)).head?

/-- DatabaseStorage.createMedicalRecord: insert values(record).returning();
id from the serial sequence, createdAt and updatedAt from their
defaultNow() in the same statement, hence equal. -/
def dbCreateMedicalRecord (d : DbState) (x : InsertMedicalRecord)
    (now : Time) : MedicalRecord × DbState :=
  let row := buildMedicalRecord x d.medicalRecordsSerial now
  (row,
   { d with medicalRecords := d.medicalRecords ++ [row],
            medicalRecordsSerial := d.medicalRecordsSerial + 1 })

/-- DatabaseStorage.updateMedicalRecord: set({ ...data, updatedAt: now })
on the matching row, returning it. -/
def dbUpdateMedicalRecord (d : DbState) (id : Nat)
    (p : PatchMedicalRecord) (now : Time) :
    Option MedicalRecord × DbState :=
  match (d.medicalRecords.filter (fun row => row.id == id)).head? with
  | none => (none, d)
  | some r =>
    let updated := mergeMedicalRecord r p now
    (some updated,
     { d with
         medicalRecords := d.medicalRecords.map
           (fun row => if row.id == id then mergeMedicalRecord row p now
                       else row) })

/-- DatabaseStorage.deleteMedicalRecord: delete rows, return true. -/
def dbDeleteMedicalRecord (d : DbState) (id : Nat) : Bool × DbState :=
  (true,
   { d with
       medicalRecords :=
         d.medicalRecords.filter (fun row => !(row.id == id)) })

/-- DatabaseStorage.getStatistics.  The queries are
select({ count: table.id }).from(table)[.where(...)]: each returns the
rows with the id column relabelled count, and the code then reads
result[0]?.count || 0 — the id of the FIRST matching row, not a count. -/
def dbGetStatistics (d : DbState) : Statistics :=
  { ubsCount := ((d.ubs.head?).map Ubs.id).getD 0,
    doctorCount :=
      (((d.employees.filter (fun emp => emp.role == "doctor")).head?).map
        Employee.id).getD 0,
    recordCount := ((d.medicalRecords.head?).map MedicalRecord.id).getD 0,
    activeRecordCount :=
      (((d.medicalRecords.filter
        (fun rec => rec.status == "active")).head?).map
        MedicalRecord.id).getD 0 }

/-! ## Schema and validation layer (shared/schema.ts,
sifilesCongenitaSchema)

A candidate leaf value, as zod sees it after JSON parsing or from client
code: a string, a number, a boolean, or a Date object (which may be an
Invalid Date, modelled as `JVal.date none`). -/

inductive JVal where
  | str (s : String)
  | num (n : Int)
  | bool (b : Bool)
  | date (t : Option Time)
  deriving DecidableEq, Repr

/-- z.string() check. -/
def isStr : JVal → Bool
  | .str _ => true
  | _ => false

/-- z.number() check. -/
def isNum : JVal → Bool
  | .num _ => true
  | _ => false

/-- z.boolean() check. -/
def isBool : JVal → Bool
  | .bool _ => true
  | _ => false

/-- z.date() check: only an actual, valid Date instance passes; strings
(date-like or not) and Invalid Date fail. -/
def isDate : JVal → Bool
  | .date (some _) => true
  | _ => false

/-- monitoramento_sifilis_congenita section candidate. -/
structure CandMonitoramento where
  matricula : JVal
  data : JVal
  nome : JVal
  data_nascimento : JVal
  encaminhado_por : JVal
  deriving DecidableEq, Repr

/-- historia_materna section candidate. -/
structure CandHistoriaMaterna where
  nome_mae : JVal
  idade : JVal
  anos_pre_natal_ubs : JVal
  numero_consultas : JVal
  tratamento : JVal
  tratou_parceiro : JVal
  observacoes : JVal
  deriving DecidableEq, Repr

/-- historico_hospitalar section candidate. -/
structure CandHistoricoHospitalar where
  local_nascimento : JVal
  tipo_parto : JVal
  idade_gestacional : JVal
  semanas_apgar : JVal
  teste_sorologico : JVal
  tratamento : JVal
  exames_radiologicos : JVal
  liquor : JVal
  deriving DecidableEq, Repr

/-- triagem_neonatal.reflexo_vermelho candidate. -/
structure CandReflexoVermelho where
  olho_direito : JVal
  olho_esquerdo : JVal
  deriving DecidableEq, Repr

/-- triagem_neonatal.triagem_auditiva candidate. -/
structure CandTriagemAuditiva where
  emissao_otoacustica_evocada : JVal
  potencial_evocado_auditivo_tronco : JVal
  ouvido_direito : JVal
  ouvido_esquerdo : JVal
  deriving DecidableEq, Repr

/-- triagem_neonatal.oximetria_pulso candidate. -/
structure CandOximetriaPulso where
  msd : JVal
  mid : JVal
  deriving DecidableEq, Repr

/-- triagem_neonatal section candidate. -/
structure CandTriagemNeonatal where
  reflexo_vermelho : CandReflexoVermelho
  triagem_auditiva : CandTriagemAuditiva
  oximetria_pulso : CandOximetriaPulso
  teste_linguinha : JVal
  observacoes : JVal
  deriving DecidableEq, Repr

/-- A follow-up checkpoint (primeiro/terceiro/sexto/decimo_oito mes). -/
structure CandMes where
  data : JVal
  resultado : JVal
  tratamento : JVal
  deriving DecidableEq, Repr

/-- acompanhamento...acompanhamentos candidate. -/
structure CandAcompanhamentos where
  oftalmologico : JVal
  neurologico : JVal
  audiologico : JVal
  outros : JVal
  deriving DecidableEq, Repr

/-- acompanhamento_ambulatorio_alto_risco section candidate. -/
structure CandAcompanhamento where
  data_primeira_consulta : JVal
  exame_sorologia : JVal
  primeiro_mes : CandMes
  terceiro_mes : CandMes
  sexto_mes : CandMes
  decimo_oito_mes : CandMes
  liquor_alterado : JVal
  acompanhamentos : CandAcompanhamentos
  observacoes : JVal
  alta_ambulatorio_alto_risco : JVal
  ubs_referencia : JVal
  deriving DecidableEq, Repr

/-- The whole clinical payload candidate (five sections). -/
structure CandPayload where
  monitoramento_sifilis_congenita : CandMonitoramento
  historia_materna : CandHistoriaMaterna
  historico_hospitalar : CandHistoricoHospitalar
  triagem_neonatal : CandTriagemNeonatal
  acompanhamento_ambulatorio_alto_risco : CandAcompanhamento
  deriving DecidableEq, Repr

/-- Leaf checks of z.object for monitoramento_sifilis_congenita. -/
def validMonitoramento (m : CandMonitoramento) : Bool :=
  isStr m.matricula && isDate m.data && isStr m.nome &&
  isDate m.data_nascimento && isStr m.encaminhado_por

/-- Leaf checks for historia_materna. -/
def validHistoriaMaterna (m : CandHistoriaMaterna) : Bool :=
  isStr m.nome_mae && isNum m.idade && isStr m.anos_pre_natal_ubs &&
  isNum m.numero_consultas && isStr m.tratamento &&
  isStr m.tratou_parceiro && isStr m.observacoes

/-- Leaf checks for historico_hospitalar. -/
def validHistoricoHospitalar (m : CandHistoricoHospitalar) : Bool :=
  isStr m.local_nascimento && isStr m.tipo_parto &&
  isStr m.idade_gestacional && isStr m.semanas_apgar &&
  isStr m.teste_sorologico && isStr m.tratamento &&
  isStr m.exames_radiologicos && isStr m.liquor

/-- Leaf checks for triagem_neonatal. -/
def validTriagemNeonatal (m : CandTriagemNeonatal) : Bool :=
  isStr m.reflexo_vermelho.olho_direito &&
  isStr m.reflexo_vermelho.olho_esquerdo &&
  isStr m.triagem_auditiva.emissao_otoacustica_evocada &&
  isStr m.triagem_auditiva.potencial_evocado_auditivo_tronco &&
  isStr m.triagem_auditiva.ouvido_direito &&
  isStr m.triagem_auditiva.ouvido_esquerdo &&
  isStr m.oximetria_pulso.msd && isStr m.oximetria_pulso.mid &&
  isStr m.teste_linguinha && isStr m.observacoes

/-- Leaf checks for one follow-up checkpoint. -/
def validMes (m : CandMes) : Bool :=
  isDate m.data && isStr m.resultado && isStr m.tratamento

/-- Leaf checks for acompanhamento_ambulatorio_alto_risco. -/
def validAcompanhamento (m : CandAcompanhamento) : Bool :=
  isDate m.data_primeira_consulta && isStr m.exame_sorologia &&
  validMes m.primeiro_mes && validMes m.terceiro_mes &&
  validMes m.sexto_mes && validMes m.decimo_oito_mes &&
  isStr m.liquor_alterado &&
  isBool m.acompanhamentos.oftalmologico &&
  isBool m.acompanhamentos.neurologico &&
  isBool m.acompanhamentos.audiologico &&
  isStr m.acompanhamentos.outros &&
  isStr m.observacoes && isStr m.alta_ambulatorio_alto_risco &&
  isStr m.ubs_referencia

/-- sifilesCongenitaSchema.safeParse succeeds exactly when every leaf
passes its zod type check. -/
def validSifilesCongenita (p : CandPayload) : Bool :=
  validMonitoramento p.monitoramento_sifilis_congenita &&
  validHistoriaMaterna p.historia_materna &&
  validHistoricoHospitalar p.historico_hospitalar &&
  validTriagemNeonatal p.triagem_neonatal &&
  validAcompanhamento p.acompanhamento_ambulatorio_alto_risco

/-! ## Form controller (medical-record-form.tsx) -/

/-- The values held by the medical-record form: the root fields plus the
nested clinical payload (date-bearing leaves may hold strings or Date
values before submit). -/
structure FormValues where
  patientName : String
  patientBirthDate : JVal
  diseaseId : Nat
  ubsId : Nat
  status : String
  data : CandPayload
  deriving DecidableEq, Repr

/-- formatDate from onSubmit:
a string is run through new Date(string); anything that ends up a valid
Date is kept, everything else becomes new Date() — the current time.
`parse` abstracts the JavaScript Date string parser. -/
def formatDate (parse : String → Option Time) (v : JVal) (now : Time) :
    Time :=
  match v with
  | .str s => (parse s).getD now
  | .date (some t) => t
  | _ => now

/-- The `formatted` object built by onSubmit: every date-bearing field of
the form values (patientBirthDate and the seven date leaves of the
payload) is coerced with formatDate; every other field is spread
through unchanged. -/
def onSubmitFormat (parse : String → Option Time) (fv : FormValues)
    (now : Time) : FormValues :=
  { fv with
      patientBirthDate :=
        .date (some (formatDate parse fv.patientBirthDate now)),
      data :=
        { fv.data with
            monitoramento_sifilis_congenita :=
              { fv.data.monitoramento_sifilis_congenita with
                  data := .date (some (formatDate parse
                    fv.data.monitoramento_sifilis_congenita.data now)),
                  data_nascimento := .date (some (formatDate parse
                    fv.data.monitoramento_sifilis_congenita.data_nascimento
                    now)) },
            acompanhamento_ambulatorio_alto_risco :=
              { fv.data.acompanhamento_ambulatorio_alto_risco with
                  data_primeira_consulta := .date (some (formatDate parse
                    fv.data.acompanhamento_ambulatorio_alto_risco.data_primeira_consulta
                    now)),
                  primeiro_mes :=
                    { fv.data.acompanhamento_ambulatorio_alto_risco.primeiro_mes with
                        data := .date (some (formatDate parse
                          fv.data.acompanhamento_ambulatorio_alto_risco.primeiro_mes.data
                          now)) },
                  terceiro_mes :=
                    { fv.data.acompanhamento_ambulatorio_alto_risco.terceiro_mes with
                        data := .date (some (formatDate parse
                          fv.data.acompanhamento_ambulatorio_alto_risco.terceiro_mes.data
                          now)) },
                  sexto_mes :=
                    { fv.data.acompanhamento_ambulatorio_alto_risco.sexto_mes with
                        data := .date (some (formatDate parse
                          fv.data.acompanhamento_ambulatorio_alto_risco.sexto_mes.data
                          now)) },
                  decimo_oito_mes :=
                    { fv.data.acompanhamento_ambulatorio_alto_risco.decimo_oito_mes with
                        data := .date (some (formatDate parse
                          fv.data.acompanhamento_ambulatorio_alto_risco.decimo_oito_mes.data
                          now)) } } } }

/-- JavaScript truthiness of a form field value: the empty string, zero
and false are falsy; every Date object (valid or not) is truthy. -/
def jsTruthy : JVal → Bool
  | .str s => !s.isEmpty
  | .num n => n != 0
  | .bool b => b
  | .date _ => true

/-- The slice of form state touched by the auto-fill effect: the root
fields and the two watched leaves of the monitoramento section. -/
structure FormSyncState where
  patientName : String
  patientBirthDate : JVal
  monitoramentoNome : String
  monitoramentoDataNascimento : JVal
  deriving DecidableEq, Repr

/-- The auto-fill useEffect: when the watched monitoramento nome is truthy
and differs from patientName, overwrite patientName; likewise for the
birth date.  The nested fields are only read, never written. -/
def autoFillEffect (s : FormSyncState) : FormSyncState :=
  let s1 :=
    if !s.monitoramentoNome.isEmpty &&
        s.monitoramentoNome != s.patientName then
      { s with patientName := s.monitoramentoNome }
    else s
  if jsTruthy s1.monitoramentoDataNascimento &&
      s1.monitoramentoDataNascimento != s1.patientBirthDate then
    { s1 with patientBirthDate := s1.monitoramentoDataNascimento }
  else s1

/-! ## Operation sequences over MemStorage (for lifetime invariants and
the comparison with DatabaseStorage) -/

/-- A client-visible storage operation on the in-memory store (the ones
that touch the ubs and medical-record tables and their counters). -/
inductive StoreOp where
  | createRecord (x : InsertMedicalRecord) (now : Time)
  | updateRecord (id : Nat) (p : PatchMedicalRecord) (now : Time)
  | deleteRecord (id : Nat)
  | createUbsOp (x : InsertUbs) (now : Time)
  | deleteUbsOp (id : Nat)
  deriving Repr

/-- Run a sequence of operations on the in-memory store, collecting the
ids handed out by createMedicalRecord and by createUbs, in order. -/
def memRunOps (s : MemStore) : List StoreOp → MemStore × List Nat × List Nat
  | [] => (s, [], [])
  | .createRecord x now :: rest =>
    let res := memRunOps (memCreateMedicalRecord s x now).2 rest
    (res.1, (memCreateMedicalRecord s x now).1.id :: res.2.1, res.2.2)
  | .updateRecord id p now :: rest =>
    memRunOps (memUpdateMedicalRecord s id p now).2 rest
  | .deleteRecord id :: rest =>
    memRunOps (memDeleteMedicalRecord s id).2 rest
  | .createUbsOp x now :: rest =>
    let res := memRunOps (memCreateUbs s x now).2 rest
    (res.1, res.2.1, (memCreateUbs s x now).1.id :: res.2.2)
  | .deleteUbsOp id :: rest =>
    memRunOps (memDeleteUbs s id).2 rest

/-- Run the same sequence of medical-record creations (payload and
timestamp) against both stores, starting anywhere. -/
def memRunCreates (s : MemStore) :
    List (InsertMedicalRecord × Time) → MemStore
  | [] => s
  | (x, now) :: rest => memRunCreates (memCreateMedicalRecord s x now).2 rest

def dbRunCreates (d : DbState) :
    List (InsertMedicalRecord × Time) → DbState
  | [] => d
  | (x, now) :: rest => dbRunCreates (dbCreateMedicalRecord d x now).2 rest

/-! ## Claim theorems -/

/-- C1: in the in-memory store, createMedicalRecord assigns an id and
sets createdAt (with updatedAt = createdAt), createUbs assigns an id and
sets createdAt, and getById with the returned id yields exactly the
created aggregate: every field of the insert shape survives the round
trip unaltered. -/
theorem claim_C1_create_getById_roundtrip (s : MemStore)
    (x : InsertMedicalRecord) (u : InsertUbs) (now : Time) :
    (memGetMedicalRecord (memCreateMedicalRecord s x now).2
        (memCreateMedicalRecord s x now).1.id =
      some (memCreateMedicalRecord s x now).1) ∧
    ((memCreateMedicalRecord s x now).1.patientName = x.patientName ∧
     (memCreateMedicalRecord s x now).1.patientBirthDate =
       x.patientBirthDate ∧
     (memCreateMedicalRecord s x now).1.diseaseId = x.diseaseId ∧
     (memCreateMedicalRecord s x now).1.ubsId = x.ubsId ∧
     (memCreateMedicalRecord s x now).1.employeeId = x.employeeId ∧
     (memCreateMedicalRecord s x now).1.data = x.data ∧
     (memCreateMedicalRecord s x now).1.status = x.status ∧
     (memCreateMedicalRecord s x now).1.createdAt = now ∧
     (memCreateMedicalRecord s x now).1.updatedAt =
       (memCreateMedicalRecord s x now).1.createdAt) ∧
    (memGetUbs (memCreateUbs s u now).2 (memCreateUbs s u now).1.id =
      some (memCreateUbs s u now).1) ∧
    ((memCreateUbs s u now).1.name = u.name ∧
     (memCreateUbs s u now).1.address = u.address ∧
     (memCreateUbs s u now).1.city = u.city ∧
     (memCreateUbs s u now).1.state = u.state ∧
     (memCreateUbs s u now).1.zipCode = u.zipCode ∧
     (memCreateUbs s u now).1.phone = u.phone ∧
     (memCreateUbs s u now).1.email = u.email ∧
     (memCreateUbs s u now).1.district = u.district ∧
     (memCreateUbs s u now).1.createdAt = now) := by
  refine ⟨?_, ⟨rfl, rfl, rfl, rfl, rfl, rfl, rfl, rfl, rfl⟩, ?_,
    ⟨rfl, rfl, rfl, rfl, rfl, rfl, rfl, rfl, rfl⟩⟩
  · exact mapGet_mapSet_self MedicalRecord.id s.medicalRecordsList
      (buildMedicalRecord x s.currentIdMedicalRecords now)
  · exact mapGet_mapSet_self Ubs.id s.ubsList
      { id := s.currentIdUbs, name := u.name, address := u.address,
        city := u.city, state := u.state, zipCode := u.zipCode,
        phone := u.phone, email := u.email, district := u.district,
        createdAt := now }

/-- C2: in the in-memory store, updateMedicalRecord on an existing record
overwrites exactly the fields present in the patch, leaves every other
field unchanged (id, createdAt, and any unpatched field such as the data
payload), always refreshes updatedAt to the supplied current time, stores
the result under the same id, and leaves every other record untouched. -/
theorem claim_C2_update_merge_law (s : MemStore) (id : Nat)
    (p : PatchMedicalRecord) (now : Time) (r : MedicalRecord)
    (h : memGetMedicalRecord s id = some r) :
    ∃ r1, (memUpdateMedicalRecord s id p now).1 = some r1 ∧
      memGetMedicalRecord (memUpdateMedicalRecord s id p now).2 id =
        some r1 ∧
      r1.id = r.id ∧ r1.createdAt = r.createdAt ∧ r1.updatedAt = now ∧
      r1.patientName = p.patientName.getD r.patientName ∧
      r1.patientBirthDate = p.patientBirthDate.getD r.patientBirthDate ∧
      r1.diseaseId = p.diseaseId.getD r.diseaseId ∧
      r1.ubsId = p.ubsId.getD r.ubsId ∧
      r1.employeeId = p.employeeId.getD r.employeeId ∧
      r1.data = p.data.getD r.data ∧
      r1.status = p.status.getD r.status ∧
      ∀ j, j ≠ id →
        memGetMedicalRecord (memUpdateMedicalRecord s id p now).2 j =
          memGetMedicalRecord s j := by
  have hrid : r.id = id := by
    have := List.find?_some h
    simpa using this
  have hm : mapGet MedicalRecord.id s.medicalRecordsList id = some r := h
  refine ⟨mergeMedicalRecord r p now, ?_, ?_, rfl, rfl, rfl, rfl, rfl,
    rfl, rfl, rfl, rfl, rfl, ?_⟩
  · simp only [memUpdateMedicalRecord, hm]
  · show mapGet MedicalRecord.id
      (memUpdateMedicalRecord s id p now).2.medicalRecordsList id =
        some (mergeMedicalRecord r p now)
    have hlist : (memUpdateMedicalRecord s id p now).2.medicalRecordsList =
        mapSet MedicalRecord.id s.medicalRecordsList
          (mergeMedicalRecord r p now) := by
      simp only [memUpdateMedicalRecord, hm]
    rw [hlist]
    have := mapGet_mapSet_self MedicalRecord.id s.medicalRecordsList
      (mergeMedicalRecord r p now)
    simpa [mergeMedicalRecord, hrid] using this
  · intro j hj
    have hlist : (memUpdateMedicalRecord s id p now).2.medicalRecordsList =
        mapSet MedicalRecord.id s.medicalRecordsList
          (mergeMedicalRecord r p now) := by
      simp only [memUpdateMedicalRecord, hm]
    show mapGet MedicalRecord.id
      (memUpdateMedicalRecord s id p now).2.medicalRecordsList j =
        mapGet MedicalRecord.id s.medicalRecordsList j
    rw [hlist]
    exact mapGet_mapSet_other MedicalRecord.id s.medicalRecordsList
      (mergeMedicalRecord r p now) j
      (by simpa [mergeMedicalRecord, hrid] using hj.symm)

/-- Concrete record, store and patch used to witness the update law. -/
def c2record : MedicalRecord :=
  { id := 1, patientName := "Maria", patientBirthDate := 5,
    diseaseId := some 2, ubsId := some 3, employeeId := none,
    data := "doc-sifilis-congenita-v1", status := "active",
    createdAt := 10, updatedAt := 10 }

def c2store : MemStore :=
  { initialMemStore with medicalRecordsList := [c2record],
                         currentIdMedicalRecords := 2 }

def c2patch : PatchMedicalRecord := { status := some "critical" }

theorem claim_C2_update_merge_law_witness :
    memGetMedicalRecord c2store 1 = some c2record ∧
    (∃ r1, (memUpdateMedicalRecord c2store 1 c2patch 50).1 = some r1 ∧
      memGetMedicalRecord (memUpdateMedicalRecord c2store 1 c2patch 50).2
        1 = some r1 ∧
      r1.id = c2record.id ∧ r1.createdAt = c2record.createdAt ∧
      r1.updatedAt = 50 ∧
      r1.patientName = c2patch.patientName.getD c2record.patientName ∧
      r1.patientBirthDate =
        c2patch.patientBirthDate.getD c2record.patientBirthDate ∧
      r1.diseaseId = c2patch.diseaseId.getD c2record.diseaseId ∧
      r1.ubsId = c2patch.ubsId.getD c2record.ubsId ∧
      r1.employeeId = c2patch.employeeId.getD c2record.employeeId ∧
      r1.data = c2patch.data.getD c2record.data ∧
      r1.status = c2patch.status.getD c2record.status ∧
      ∀ j, j ≠ 1 →
        memGetMedicalRecord (memUpdateMedicalRecord c2store 1 c2patch 50).2
          j = memGetMedicalRecord c2store j) :=
  ⟨by decide,
   claim_C2_update_merge_law c2store 1 c2patch 50 c2record (by decide)⟩

/-- C3 counterexample: on the relational store, deleting a UBS id that
has no row still reports true (deleteUbs returns true unconditionally),
so delete does NOT return true exactly when a row existed. -/
theorem claim_C3_counterexample :
    dbGetUbs initialDbState 1 = none ∧
    (dbDeleteUbs initialDbState 1).1 = true := ⟨rfl, rfl⟩

/-- C3 (amended): in the in-memory store, delete returns true exactly
when a row with that id existed; after a delete the id is gone and a
second delete reports false.  In the relational store, deleteUbs and
deleteMedicalRecord return true unconditionally, whether or not a row
existed. -/
theorem claim_C3_delete_finality :
    (∀ (s : MemStore) (id : Nat),
      ((memDeleteMedicalRecord s id).1 = true ↔
        (memGetMedicalRecord s id).isSome = true)) ∧
    (∀ (s : MemStore) (id : Nat),
      memGetMedicalRecord (memDeleteMedicalRecord s id).2 id = none) ∧
    (∀ (s : MemStore) (id : Nat),
      (memDeleteMedicalRecord (memDeleteMedicalRecord s id).2 id).1 =
        false) ∧
    (∀ (s : MemStore) (id : Nat),
      ((memDeleteUbs s id).1 = true ↔ (memGetUbs s id).isSome = true)) ∧
    (∀ (d : DbState) (id : Nat), (dbDeleteUbs d id).1 = true) ∧
    (∀ (d : DbState) (id : Nat), (dbDeleteMedicalRecord d id).1 = true) := by
  refine ⟨?_, ?_, ?_, ?_, fun d id => rfl, fun d id => rfl⟩
  · intro s id
    exact mapDelete_fst_iff MedicalRecord.id s.medicalRecordsList id
  · intro s id
    exact mapGet_mapDelete_self MedicalRecord.id s.medicalRecordsList id
  · intro s id
    show (mapDelete MedicalRecord.id
      (mapDelete MedicalRecord.id s.medicalRecordsList id).2 id).1 = false
    unfold mapDelete
    simp only [List.any_eq_false]
    intro x hx
    have := (List.mem_filter.mp hx).2
    simp only [Bool.not_eq_eq_eq_not, Bool.not_true] at this
    simp [this]
  · intro s id
    exact mapDelete_fst_iff Ubs.id s.ubsList id

theorem mapGet_eq_filter_head (key : α → Nat) (k : Nat) :
    ∀ l : List α, mapGet key l k = (l.filter (fun q => key q == k)).head? := by
  intro l
  induction l with
  | nil => rfl
  | cons a t ih =>
    unfold mapGet at ih ⊢
    by_cases ha : (key a == k) = true
    · simp only [List.find?, List.filter, ha, List.head?]
    · have ha2 : (key a == k) = false := by simpa using ha
      simp only [List.find?, List.filter, ha2]
      exact ih

/-- Both stores append the same freshly built row on createMedicalRecord
and step their counter the same way, provided every stored id is below
the in-memory counter (which makes Map.set an append). -/
theorem memRunCreates_agrees_dbRunCreates :
    ∀ (creates : List (InsertMedicalRecord × Time)) (s : MemStore)
      (d : DbState),
      s.medicalRecordsList = d.medicalRecords →
      s.currentIdMedicalRecords = d.medicalRecordsSerial →
      (∀ r ∈ s.medicalRecordsList, r.id < s.currentIdMedicalRecords) →
      (memRunCreates s creates).medicalRecordsList =
        (dbRunCreates d creates).medicalRecords := by
  intro creates
  induction creates with
  | nil => intro s d h1 _ _; exact h1
  | cons c rest ih =>
    obtain ⟨x, now⟩ := c
    intro s d h1 h2 h3
    have hany : s.medicalRecordsList.any
        (fun q => q.id == s.currentIdMedicalRecords) = false := by
      simp only [List.any_eq_false]
      intro r hr
      have := h3 r hr
      simp only [beq_iff_eq]
      omega
    have hset : mapSet MedicalRecord.id s.medicalRecordsList
        (buildMedicalRecord x s.currentIdMedicalRecords now) =
        s.medicalRecordsList ++
          [buildMedicalRecord x s.currentIdMedicalRecords now] := by
      unfold mapSet
      rw [if_neg (by simpa [buildMedicalRecord] using hany)]
    show (memRunCreates (memCreateMedicalRecord s x now).2 rest).medicalRecordsList =
      (dbRunCreates (dbCreateMedicalRecord d x now).2 rest).medicalRecords
    apply ih
    · show mapSet MedicalRecord.id s.medicalRecordsList
        (buildMedicalRecord x s.currentIdMedicalRecords now) =
        d.medicalRecords ++ [buildMedicalRecord x d.medicalRecordsSerial now]
      rw [hset, h1, h2]
    · show s.currentIdMedicalRecords + 1 = d.medicalRecordsSerial + 1
      omega
    · show ∀ r ∈ mapSet MedicalRecord.id s.medicalRecordsList
        (buildMedicalRecord x s.currentIdMedicalRecords now),
          r.id < s.currentIdMedicalRecords + 1
      rw [hset]
      intro r hr
      rcases List.mem_append.mp hr with hin | hnew
      · have := h3 r hin
        omega
      · have : r = buildMedicalRecord x s.currentIdMedicalRecords now := by
          simpa using hnew
        simp [this, buildMedicalRecord]

/-- C4 counterexample: the same single-operation sequence — delete the
(nonexistent) medical record 1 on a fresh store — returns false on the
in-memory implementation and true on the relational one, so the two
implementations do not have identical semantics. -/
theorem claim_C4_counterexample :
    (memDeleteMedicalRecord initialMemStore 1).1 ≠
      (dbDeleteMedicalRecord initialDbState 1).1 := by decide

/-- C4 (amended): the two stores agree on createMedicalRecord /
getMedicalRecord — any sequence of creates with the same payloads and
timestamps, run from fresh stores, makes getById agree on every id — but
they do not implement identical semantics everywhere: deleteMedicalRecord
reports row existence in the in-memory store and unconditionally true in
the relational store. -/
theorem claim_C4_store_agreement_and_divergence :
    (∀ (creates : List (InsertMedicalRecord × Time)) (id : Nat),
      memGetMedicalRecord (memRunCreates initialMemStore creates) id =
        dbGetMedicalRecord (dbRunCreates initialDbState creates) id) ∧
    (∀ (d : DbState) (id : Nat), (dbDeleteMedicalRecord d id).1 = true) ∧
    (∀ (s : MemStore) (id : Nat),
      ((memDeleteMedicalRecord s id).1 = true ↔
        (memGetMedicalRecord s id).isSome = true)) := by
  refine ⟨?_, fun d id => rfl, ?_⟩
  · intro creates id
    have h := memRunCreates_agrees_dbRunCreates creates initialMemStore
      initialDbState rfl rfl (by intro r hr; simp [initialMemStore] at hr)
    show mapGet MedicalRecord.id
        (memRunCreates initialMemStore creates).medicalRecordsList id =
      ((dbRunCreates initialDbState creates).medicalRecords.filter
        (fun row => row.id == id)).head?
    rw [mapGet_eq_filter_head, h]
  · intro s id
    exact mapDelete_fst_iff MedicalRecord.id s.medicalRecordsList id

instance : IsTotal Ubs ubsNameAsc := ⟨fun a b => le_total a.name b.name⟩

instance : IsTrans Ubs ubsNameAsc :=
  ⟨fun _ _ _ h1 h2 => le_trans h1 h2⟩

instance : IsTotal Employee empNameAsc :=
  ⟨fun a b => le_total a.name b.name⟩

instance : IsTrans Employee empNameAsc :=
  ⟨fun _ _ _ h1 h2 => le_trans h1 h2⟩

instance : IsTotal Disease disNameAsc :=
  ⟨fun a b => le_total a.name b.name⟩

instance : IsTrans Disease disNameAsc :=
  ⟨fun _ _ _ h1 h2 => le_trans h1 h2⟩

instance : IsTotal MedicalRecord recCreatedDesc :=
  ⟨fun a b => (le_total b.createdAt a.createdAt).elim Or.inl Or.inr⟩

instance : IsTrans MedicalRecord recCreatedDesc :=
  ⟨fun _ _ _ h1 h2 => le_trans h2 h1⟩

/-- Two records under the same UBS, stored in table order with the older
one first: the relational filtered query returns them unsorted. -/
def c5older : MedicalRecord :=
  { id := 1, patientName := "Ana", patientBirthDate := 0,
    diseaseId := some 4, ubsId := some 5, employeeId := none,
    data := "doc-a", status := "active", createdAt := 1, updatedAt := 1 }

def c5newer : MedicalRecord :=
  { id := 2, patientName := "Bia", patientBirthDate := 0,
    diseaseId := some 4, ubsId := some 5, employeeId := none,
    data := "doc-b", status := "active", createdAt := 9, updatedAt := 9 }

def c5db : DbState :=
  { initialDbState with medicalRecords := [c5older, c5newer],
                        medicalRecordsSerial := 3 }

/-- C5 counterexample: the relational store's MedicalRecord list filtered
by unit reference is NOT sorted by creation time descending — the older
record comes back first. -/
theorem claim_C5_counterexample :
    ¬ List.Sorted recCreatedDesc (dbGetMedicalRecordsByUbs c5db 5) := by
  intro h
  have he : dbGetMedicalRecordsByUbs c5db 5 = [c5older, c5newer] := by
    decide
  rw [he, List.sorted_cons] at h
  have := h.1 c5newer (by simp)
  simp [recCreatedDesc, c5older, c5newer] at this

/-- C5 (amended): UBS, Employee and Disease listAll return name-ascending
order in both stores; MedicalRecord lists are createdAt-descending in the
in-memory store (unfiltered and filtered by unit or disease) and in the
relational store for the unfiltered list only — the relational filtered
queries carry no ordering (see the counterexample). -/
theorem claim_C5_ordering_contract :
    (∀ s : MemStore,
      List.Sorted ubsNameAsc (memGetAllUbs s) ∧
      List.Sorted empNameAsc (memGetAllEmployees s) ∧
      List.Sorted disNameAsc (memGetAllDiseases s) ∧
      List.Sorted recCreatedDesc (memGetAllMedicalRecords s) ∧
      (∀ u, List.Sorted recCreatedDesc (memGetMedicalRecordsByUbs s u)) ∧
      (∀ di, List.Sorted recCreatedDesc
        (memGetMedicalRecordsByDisease s di))) ∧
    (∀ d : DbState,
      List.Sorted ubsNameAsc (dbGetAllUbs d) ∧
      List.Sorted empNameAsc (dbGetAllEmployees d) ∧
      List.Sorted disNameAsc (dbGetAllDiseases d) ∧
      List.Sorted recCreatedDesc (dbGetAllMedicalRecords d)) := by
  constructor
  · intro s
    exact ⟨List.sorted_insertionSort ubsNameAsc s.ubsList,
      List.sorted_insertionSort empNameAsc s.employeesList,
      List.sorted_insertionSort disNameAsc s.diseasesList,
      List.sorted_insertionSort recCreatedDesc s.medicalRecordsList,
      fun u => List.sorted_insertionSort recCreatedDesc _,
      fun di => List.sorted_insertionSort recCreatedDesc _⟩
  · intro d
    exact ⟨List.sorted_insertionSort ubsNameAsc d.ubs,
      List.sorted_insertionSort empNameAsc d.employees,
      List.sorted_insertionSort disNameAsc d.diseases,
      List.sorted_insertionSort recCreatedDesc d.medicalRecords⟩

/-- An otherwise well-formed clinical payload candidate whose leaves all
carry the types the schema declares (dates as actual Date values). -/
def c6good : CandPayload :=
  { monitoramento_sifilis_congenita :=
      { matricula := .str "2024-0001", data := .date (some 100),
        nome := .str "Bebe da Silva", data_nascimento := .date (some 50),
        encaminhado_por := .str "UBS" },
    historia_materna :=
      { nome_mae := .str "Maria da Silva", idade := .num 28,
        anos_pre_natal_ubs := .str "2023", numero_consultas := .num 6,
        tratamento := .str "Adequado", tratou_parceiro := .str "Sim",
        observacoes := .str "" },
    historico_hospitalar :=
      { local_nascimento := .str "Maternidade Central",
        tipo_parto := .str "Normal", idade_gestacional := .str "39",
        semanas_apgar := .str "9", teste_sorologico := .str "Reagente",
        tratamento := .str "Penicilina",
        exames_radiologicos := .str "Normal", liquor := .str "Normal" },
    triagem_neonatal :=
      { reflexo_vermelho :=
          { olho_direito := .str "Normal", olho_esquerdo := .str "Normal" },
        triagem_auditiva :=
          { emissao_otoacustica_evocada := .str "Normal",
            potencial_evocado_auditivo_tronco := .str "Normal",
            ouvido_direito := .str "Normal",
            ouvido_esquerdo := .str "Normal" },
        oximetria_pulso := { msd := .str "98", mid := .str "97" },
        teste_linguinha := .str "Normal", observacoes := .str "" },
    acompanhamento_ambulatorio_alto_risco :=
      { data_primeira_consulta := .date (some 130),
        exame_sorologia := .str "Nao reagente",
        primeiro_mes :=
          { data := .date (some 160), resultado := .str "Normal",
            tratamento := .str "" },
        terceiro_mes :=
          { data := .date (some 220), resultado := .str "Normal",
            tratamento := .str "" },
        sexto_mes :=
          { data := .date (some 310), resultado := .str "Normal",
            tratamento := .str "" },
        decimo_oito_mes :=
          { data := .date (some 670), resultado := .str "Normal",
            tratamento := .str "" },
        liquor_alterado := .str "Nao",
        acompanhamentos :=
          { oftalmologico := .bool true, neurologico := .bool false,
            audiologico := .bool false, outros := .str "" },
        observacoes := .str "",
        alta_ambulatorio_alto_risco := .str "Nao",
        ubs_referencia := .str "UBS Central" } }

/-- The same payload with one date leaf as a parseable date STRING — the
shape every JSON request body actually delivers. -/
def c6stringDate : CandPayload :=
  { c6good with
      monitoramento_sifilis_congenita.data := JVal.str "2024-01-05" }

/-- C6: sifilesCongenitaSchema accepts the payload whose date leaves are
Date values, but REJECTS the same payload when a date leaf carries a
parseable date string: z.date() admits only Date instances, so supplying
a parseable date string makes validation fail — contrary to the claim
(and the server routes feed the schema JSON-parsed bodies, in which every
date necessarily arrives as a string). -/
theorem claim_C6_date_string_rejected :
    validSifilesCongenita c6good = true ∧
    validSifilesCongenita c6stringDate = false := by decide

/-- C7: at submit time the form controller coerces every date-bearing
field — a valid Date value is kept, a string that parses is kept as its
parsed date, anything else (unparseable string, Invalid Date, empty
input) becomes the current timestamp — and the formatted object it
builds touches exactly the eight date-bearing fields, leaving every
other field unchanged; normalization is total, so no date input is ever
rejected at this stage. -/
theorem claim_C7_submit_date_normalization (parse : String → Option Time)
    (now : Time) :
    (∀ t, formatDate parse (.date (some t)) now = t) ∧
    (∀ s t, parse s = some t → formatDate parse (.str s) now = t) ∧
    (∀ s, parse s = none → formatDate parse (.str s) now = now) ∧
    (formatDate parse (.date none) now = now) ∧
    (∀ fv : FormValues,
      (onSubmitFormat parse fv now).patientName = fv.patientName ∧
      (onSubmitFormat parse fv now).diseaseId = fv.diseaseId ∧
      (onSubmitFormat parse fv now).ubsId = fv.ubsId ∧
      (onSubmitFormat parse fv now).status = fv.status ∧
      (onSubmitFormat parse fv now).patientBirthDate =
        .date (some (formatDate parse fv.patientBirthDate now)) ∧
      (onSubmitFormat parse fv now).data.monitoramento_sifilis_congenita.data =
        .date (some (formatDate parse
          fv.data.monitoramento_sifilis_congenita.data now)) ∧
      (onSubmitFormat parse fv now).data.monitoramento_sifilis_congenita.data_nascimento =
        .date (some (formatDate parse
          fv.data.monitoramento_sifilis_congenita.data_nascimento now)) ∧
      (onSubmitFormat parse fv now).data.monitoramento_sifilis_congenita.matricula =
        fv.data.monitoramento_sifilis_congenita.matricula ∧
      (onSubmitFormat parse fv now).data.monitoramento_sifilis_congenita.nome =
        fv.data.monitoramento_sifilis_congenita.nome ∧
      (onSubmitFormat parse fv now).data.monitoramento_sifilis_congenita.encaminhado_por =
        fv.data.monitoramento_sifilis_congenita.encaminhado_por ∧
      (onSubmitFormat parse fv now).data.historia_materna =
        fv.data.historia_materna ∧
      (onSubmitFormat parse fv now).data.historico_hospitalar =
        fv.data.historico_hospitalar ∧
      (onSubmitFormat parse fv now).data.triagem_neonatal =
        fv.data.triagem_neonatal ∧
      (onSubmitFormat parse fv now).data.acompanhamento_ambulatorio_alto_risco.data_primeira_consulta =
        .date (some (formatDate parse
          fv.data.acompanhamento_ambulatorio_alto_risco.data_primeira_consulta
          now)) ∧
      (onSubmitFormat parse fv now).data.acompanhamento_ambulatorio_alto_risco.primeiro_mes.data =
        .date (some (formatDate parse
          fv.data.acompanhamento_ambulatorio_alto_risco.primeiro_mes.data
          now)) ∧
      (onSubmitFormat parse fv now).data.acompanhamento_ambulatorio_alto_risco.primeiro_mes.resultado =
        fv.data.acompanhamento_ambulatorio_alto_risco.primeiro_mes.resultado ∧
      (onSubmitFormat parse fv now).data.acompanhamento_ambulatorio_alto_risco.primeiro_mes.tratamento =
        fv.data.acompanhamento_ambulatorio_alto_risco.primeiro_mes.tratamento ∧
      (onSubmitFormat parse fv now).data.acompanhamento_ambulatorio_alto_risco.terceiro_mes.data =
        .date (some (formatDate parse
          fv.data.acompanhamento_ambulatorio_alto_risco.terceiro_mes.data
          now)) ∧
      (onSubmitFormat parse fv now).data.acompanhamento_ambulatorio_alto_risco.terceiro_mes.resultado =
        fv.data.acompanhamento_ambulatorio_alto_risco.terceiro_mes.resultado ∧
      (onSubmitFormat parse fv now).data.acompanhamento_ambulatorio_alto_risco.terceiro_mes.tratamento =
        fv.data.acompanhamento_ambulatorio_alto_risco.terceiro_mes.tratamento ∧
      (onSubmitFormat parse fv now).data.acompanhamento_ambulatorio_alto_risco.sexto_mes.data =
        .date (some (formatDate parse
          fv.data.acompanhamento_ambulatorio_alto_risco.sexto_mes.data
          now)) ∧
      (onSubmitFormat parse fv now).data.acompanhamento_ambulatorio_alto_risco.sexto_mes.resultado =
        fv.data.acompanhamento_ambulatorio_alto_risco.sexto_mes.resultado ∧
      (onSubmitFormat parse fv now).data.acompanhamento_ambulatorio_alto_risco.sexto_mes.tratamento =
        fv.data.acompanhamento_ambulatorio_alto_risco.sexto_mes.tratamento ∧
      (onSubmitFormat parse fv now).data.acompanhamento_ambulatorio_alto_risco.decimo_oito_mes.data =
        .date (some (formatDate parse
          fv.data.acompanhamento_ambulatorio_alto_risco.decimo_oito_mes.data
          now)) ∧
      (onSubmitFormat parse fv now).data.acompanhamento_ambulatorio_alto_risco.decimo_oito_mes.resultado =
        fv.data.acompanhamento_ambulatorio_alto_risco.decimo_oito_mes.resultado ∧
      (onSubmitFormat parse fv now).data.acompanhamento_ambulatorio_alto_risco.decimo_oito_mes.tratamento =
        fv.data.acompanhamento_ambulatorio_alto_risco.decimo_oito_mes.tratamento ∧
      (onSubmitFormat parse fv now).data.acompanhamento_ambulatorio_alto_risco.exame_sorologia =
        fv.data.acompanhamento_ambulatorio_alto_risco.exame_sorologia ∧
      (onSubmitFormat parse fv now).data.acompanhamento_ambulatorio_alto_risco.liquor_alterado =
        fv.data.acompanhamento_ambulatorio_alto_risco.liquor_alterado ∧
      (onSubmitFormat parse fv now).data.acompanhamento_ambulatorio_alto_risco.acompanhamentos =
        fv.data.acompanhamento_ambulatorio_alto_risco.acompanhamentos ∧
      (onSubmitFormat parse fv now).data.acompanhamento_ambulatorio_alto_risco.observacoes =
        fv.data.acompanhamento_ambulatorio_alto_risco.observacoes ∧
      (onSubmitFormat parse fv now).data.acompanhamento_ambulatorio_alto_risco.alta_ambulatorio_alto_risco =
        fv.data.acompanhamento_ambulatorio_alto_risco.alta_ambulatorio_alto_risco ∧
      (onSubmitFormat parse fv now).data.acompanhamento_ambulatorio_alto_risco.ubs_referencia =
        fv.data.acompanhamento_ambulatorio_alto_risco.ubs_referencia) := by
  refine ⟨fun t => rfl, ?_, ?_, rfl, ?_⟩
  · intro s t h
    simp [formatDate, h]
  · intro s h
    simp [formatDate, h]
  · intro fv
    exact ⟨rfl, rfl, rfl, rfl, rfl, rfl, rfl, rfl, rfl, rfl, rfl, rfl,
      rfl, rfl, rfl, rfl, rfl, rfl, rfl, rfl, rfl, rfl, rfl, rfl, rfl,
      rfl, rfl, rfl, rfl, rfl, rfl, rfl⟩

/-- Date parser used to witness the normalization theorem. -/
def c7parse : String → Option Time :=
  fun s => if s = "2024-02-03" then some 77 else none

theorem claim_C7_submit_date_normalization_witness :
    formatDate c7parse (.str "2024-02-03") 9 = 77 ∧
    formatDate c7parse (.str "not a date") 9 = 9 :=
  ⟨(claim_C7_submit_date_normalization c7parse 9).2.1 "2024-02-03" 77 rfl,
   (claim_C7_submit_date_normalization c7parse 9).2.2.1 "not a date" rfl⟩

/-- Form state in which the user has just cleared the nested
monitoramento nome field while the root still holds the old name. -/
def c9cleared : FormSyncState :=
  { patientName := "Ana Maria", patientBirthDate := .date (some 10),
    monitoramentoNome := "",
    monitoramentoDataNascimento := .str "" }

/-- C9 counterexample: after an edit that clears
data.monitoramento.nome, the auto-fill effect leaves the root
patientName as it was, so the root does NOT mirror the nested field
after this edit — the claim fails for edits to a falsy value. -/
theorem claim_C9_counterexample :
    (autoFillEffect c9cleared).patientName ≠
      c9cleared.monitoramentoNome := by decide

/-- C9 (amended): the auto-fill effect overwrites the root patientName /
patientBirthDate with the nested monitoramento values whenever those are
truthy (nonempty name, any date value); when the nested value is falsy
the root keeps its old value; and the sync is one-directional — the
effect never writes the nested fields. -/
theorem claim_C9_auto_sync (s : FormSyncState) :
    (s.monitoramentoNome ≠ "" →
      (autoFillEffect s).patientName = s.monitoramentoNome) ∧
    (s.monitoramentoNome = "" →
      (autoFillEffect s).patientName = s.patientName) ∧
    (jsTruthy s.monitoramentoDataNascimento = true →
      (autoFillEffect s).patientBirthDate =
        s.monitoramentoDataNascimento) ∧
    (jsTruthy s.monitoramentoDataNascimento = false →
      (autoFillEffect s).patientBirthDate = s.patientBirthDate) ∧
    (autoFillEffect s).monitoramentoNome = s.monitoramentoNome ∧
    (autoFillEffect s).monitoramentoDataNascimento =
      s.monitoramentoDataNascimento := by
  refine ⟨?_, ?_, ?_, ?_, ?_, ?_⟩
  · intro h
    dsimp only [autoFillEffect]
    by_cases hb : s.monitoramentoNome = s.patientName
    · rw [show (!s.monitoramentoNome.isEmpty &&
          s.monitoramentoNome != s.patientName) = false by simp [hb]]
      simp only [Bool.false_eq_true, if_false]
      split <;> simp [hb.symm]
    · rw [show (!s.monitoramentoNome.isEmpty &&
          s.monitoramentoNome != s.patientName) = true by
        refine (Bool.and_eq_true _ _).mpr ⟨?_, by simpa using hb⟩
        simp only [Bool.not_eq_true']
        exact Bool.eq_false_iff.mpr
          (fun hx => h ((String.isEmpty_iff _).mp hx))]
      simp only [if_true]
      split <;> rfl
  · intro h
    dsimp only [autoFillEffect]
    rw [show (!s.monitoramentoNome.isEmpty &&
        s.monitoramentoNome != s.patientName) = false by
      rw [h]
      simp [show ("" : String).isEmpty = true from rfl]]
    simp only [Bool.false_eq_true, if_false]
    split <;> rfl
  · intro ht
    dsimp only [autoFillEffect]
    split <;>
      first
      | (by_cases he : s.monitoramentoDataNascimento = s.patientBirthDate
         · rw [show (jsTruthy s.monitoramentoDataNascimento &&
               s.monitoramentoDataNascimento != s.patientBirthDate) =
                 false by simp [he]]
           simp [he]
         · rw [show (jsTruthy s.monitoramentoDataNascimento &&
               s.monitoramentoDataNascimento != s.patientBirthDate) =
                 true by simp [ht, he]]
           simp)
  · intro hf
    dsimp only [autoFillEffect]
    split <;>
      first
      | (rw [show (jsTruthy s.monitoramentoDataNascimento &&
             s.monitoramentoDataNascimento != s.patientBirthDate) =
               false by simp [hf]]
         simp)
  · dsimp only [autoFillEffect]
    split <;> split <;> rfl
  · dsimp only [autoFillEffect]
    split <;> split <;> rfl

/-- Form state in which the user has typed a new nested name and birth
date that differ from the root fields. -/
def c9edited : FormSyncState :=
  { patientName := "", patientBirthDate := .str "",
    monitoramentoNome := "Bia Souza",
    monitoramentoDataNascimento := .date (some 42) }

theorem claim_C9_auto_sync_witness :
    (autoFillEffect c9edited).patientName =
      c9edited.monitoramentoNome ∧
    (autoFillEffect c9edited).patientBirthDate =
      c9edited.monitoramentoDataNascimento ∧
    (autoFillEffect c9edited).monitoramentoNome =
      c9edited.monitoramentoNome ∧
    (autoFillEffect c9edited).monitoramentoDataNascimento =
      c9edited.monitoramentoDataNascimento :=
  ⟨(claim_C9_auto_sync c9edited).1 (by decide),
   (claim_C9_auto_sync c9edited).2.2.1 (by decide),
   (claim_C9_auto_sync c9edited).2.2.2.2.1,
   (claim_C9_auto_sync c9edited).2.2.2.2.2⟩

/-- Ids handed out along any run of operations are bounded below by the
starting counters and strictly increase; the counters never decrease on
update or delete, so deleted ids are never handed out again. -/
theorem memRunOps_ids_increase (ops : List StoreOp) :
    ∀ s : MemStore,
      (∀ i ∈ (memRunOps s ops).2.1, s.currentIdMedicalRecords ≤ i) ∧
      (memRunOps s ops).2.1.Pairwise (· < ·) ∧
      (∀ i ∈ (memRunOps s ops).2.2, s.currentIdUbs ≤ i) ∧
      (memRunOps s ops).2.2.Pairwise (· < ·) := by
  induction ops with
  | nil => intro s; simp [memRunOps]
  | cons op rest ih =>
    intro s
    cases op with
    | createRecord x now =>
      have ih1 := ih (memCreateMedicalRecord s x now).2
      refine ⟨?_, ?_, ?_, ?_⟩
      · intro i hi
        simp only [memRunOps, List.mem_cons] at hi
        rcases hi with h | h
        · simp [memCreateMedicalRecord, buildMedicalRecord] at h
          omega
        · have := ih1.1 i h
          have h2 : (memCreateMedicalRecord s x now).2.currentIdMedicalRecords =
              s.currentIdMedicalRecords + 1 := rfl
          omega
      · show ((memRunOps (memCreateMedicalRecord s x now).2 rest).2.1.cons
          (memCreateMedicalRecord s x now).1.id).Pairwise (· < ·)
        refine List.pairwise_cons.mpr ⟨?_, ih1.2.1⟩
        intro b hb
        have := ih1.1 b hb
        have h1 : (memCreateMedicalRecord s x now).1.id =
            s.currentIdMedicalRecords := rfl
        have h2 : (memCreateMedicalRecord s x now).2.currentIdMedicalRecords =
            s.currentIdMedicalRecords + 1 := rfl
        omega
      · intro i hi
        simp only [memRunOps] at hi
        exact ih1.2.2.1 i hi
      · simp only [memRunOps]
        exact ih1.2.2.2
    | updateRecord id p now =>
      have ih1 := ih (memUpdateMedicalRecord s id p now).2
      refine ⟨?_, ih1.2.1, ?_, ih1.2.2.2⟩
      · intro i hi
        have := ih1.1 i hi
        have h2 : (memUpdateMedicalRecord s id p now).2.currentIdMedicalRecords =
            s.currentIdMedicalRecords := by
          unfold memUpdateMedicalRecord
          cases mapGet MedicalRecord.id s.medicalRecordsList id <;> rfl
        omega
      · intro i hi
        have := ih1.2.2.1 i hi
        have h2 : (memUpdateMedicalRecord s id p now).2.currentIdUbs =
            s.currentIdUbs := by
          unfold memUpdateMedicalRecord
          cases mapGet MedicalRecord.id s.medicalRecordsList id <;> rfl
        omega
    | deleteRecord id =>
      have ih1 := ih (memDeleteMedicalRecord s id).2
      exact ⟨fun i hi => ih1.1 i hi, ih1.2.1,
        fun i hi => ih1.2.2.1 i hi, ih1.2.2.2⟩
    | createUbsOp x now =>
      have ih1 := ih (memCreateUbs s x now).2
      refine ⟨?_, ?_, ?_, ?_⟩
      · intro i hi
        simp only [memRunOps] at hi
        exact ih1.1 i hi
      · simp only [memRunOps]
        exact ih1.2.1
      · intro i hi
        simp only [memRunOps, List.mem_cons] at hi
        rcases hi with h | h
        · simp [memCreateUbs] at h
          omega
        · have := ih1.2.2.1 i h
          have h2 : (memCreateUbs s x now).2.currentIdUbs =
              s.currentIdUbs + 1 := rfl
          omega
      · show ((memRunOps (memCreateUbs s x now).2 rest).2.2.cons
          (memCreateUbs s x now).1.id).Pairwise (· < ·)
        refine List.pairwise_cons.mpr ⟨?_, ih1.2.2.2⟩
        intro b hb
        have := ih1.2.2.1 b hb
        have h1 : (memCreateUbs s x now).1.id = s.currentIdUbs := rfl
        have h2 : (memCreateUbs s x now).2.currentIdUbs =
            s.currentIdUbs + 1 := rfl
        omega
    | deleteUbsOp id =>
      have ih1 := ih (memDeleteUbs s id).2
      exact ⟨fun i hi => ih1.1 i hi, ih1.2.1,
        fun i hi => ih1.2.2.1 i hi, ih1.2.2.2⟩

/-- C10: over any sequence of creates, updates and deletes run against a
fresh in-memory store, the ids returned by createMedicalRecord form a
strictly increasing list, and so do the ids returned by createUbs — each
new id is strictly greater than every id previously assigned for that
aggregate type (hence never reused, even after deletes). -/
theorem claim_C10_ids_strictly_increase (ops : List StoreOp) :
    ((memRunOps initialMemStore ops).2.1.Pairwise (· < ·)) ∧
    ((memRunOps initialMemStore ops).2.2.Pairwise (· < ·)) :=
  ⟨(memRunOps_ids_increase ops initialMemStore).2.1,
   (memRunOps_ids_increase ops initialMemStore).2.2.2⟩

/-- One health unit, one active doctor, one active record: the base
in-memory store of the statistics scenario. -/
def c8ubs : Ubs :=
  { id := 1, name := "UBS Central", address := "Rua A, 10",
    city := "Sao Paulo", state := "SP", zipCode := none, phone := none,
    email := none, district := none, createdAt := 1 }

def c8doctor : Employee :=
  { id := 1, name := "Dra. Julia", role := "doctor",
    specialty := some "Pediatria", licenseNumber := some "CRM-123",
    ubsId := some 1, email := "julia@ubs.br", phone := none,
    isActive := some true, createdAt := 2 }

def c8rec : MedicalRecord :=
  { id := 1, patientName := "Bebe Um", patientBirthDate := 3,
    diseaseId := some 1, ubsId := some 1, employeeId := some 1,
    data := "doc-1", status := "active", createdAt := 5, updatedAt := 5 }

def c8base : MemStore :=
  { ubsList := [c8ubs], employeesList := [c8doctor], diseasesList := [],
    medicalRecordsList := [c8rec],
    currentIdUbs := 2, currentIdEmployees := 2, currentIdDiseases := 1,
    currentIdMedicalRecords := 2 }

def c8activeInsert : InsertMedicalRecord :=
  { patientName := "Bebe Dois", patientBirthDate := 4,
    diseaseId := some 1, ubsId := some 1, employeeId := some 1,
    data := "doc-2", status := "active" }

def c8doneInsert : InsertMedicalRecord :=
  { c8activeInsert with status := "completed" }

/-- Relational store already holding two active records (ids 1 and 2). -/
def c8recB : MedicalRecord :=
  { id := 2, patientName := "Bebe Dois", patientBirthDate := 4,
    diseaseId := some 1, ubsId := some 1, employeeId := some 1,
    data := "doc-2", status := "active", createdAt := 6, updatedAt := 6 }

def c8db : DbState :=
  { initialDbState with
      ubs := [c8ubs], employees := [c8doctor],
      medicalRecords := [c8rec, c8recB],
      ubsSerial := 2, employeesSerial := 2, medicalRecordsSerial := 3 }

/-- C8: the in-memory getStatistics does return live counts (unit count,
active-doctor count, total records and active records, under the source
keys ubsCount / doctorCount / recordCount / activeRecordCount), and
creating one record raises recordCount by exactly 1 and
activeRecordCount by 1 iff the new record is active — but the relational
getStatistics does not: with two records stored it reports recordCount =
1 (the id of the first row, because the queries select the id column
labelled count and read result[0].count), and creating a third record
leaves it unchanged instead of incrementing it. -/
theorem claim_C8_statistics_counts :
    (memGetStatistics c8base).ubsCount = 1 ∧
    (memGetStatistics c8base).doctorCount = 1 ∧
    (memGetStatistics c8base).recordCount = 1 ∧
    (memGetStatistics c8base).activeRecordCount = 1 ∧
    (memGetStatistics (memCreateMedicalRecord c8base c8activeInsert
        20).2).recordCount = (memGetStatistics c8base).recordCount + 1 ∧
    (memGetStatistics (memCreateMedicalRecord c8base c8activeInsert
        20).2).activeRecordCount =
      (memGetStatistics c8base).activeRecordCount + 1 ∧
    (memGetStatistics (memCreateMedicalRecord c8base c8doneInsert
        20).2).recordCount = (memGetStatistics c8base).recordCount + 1 ∧
    (memGetStatistics (memCreateMedicalRecord c8base c8doneInsert
        20).2).activeRecordCount =
      (memGetStatistics c8base).activeRecordCount ∧
    c8db.medicalRecords.length = 2 ∧
    (dbGetStatistics c8db).recordCount = 1 ∧
    (dbGetStatistics (dbCreateMedicalRecord c8db c8activeInsert
        30).2).recordCount = (dbGetStatistics c8db).recordCount := by
  decide
